import Mathlib

/-
Verification development for the sso repository (Honahec/sso).

Shallow embedding of the Session & Claim Authority:
  * data model (src/sso_auth/models.py together with the field usage in
    src/sso_auth/views.py, src/sso_admin/serializers.py: the `token_version`
    integer on User and the `create_applications` flag on Permission are used
    pervasively by the views and declared as model fields by the admin
    ModelSerializers),
  * bearer-token issuance and verification
    (UserAuthViewSet._create_token_payload, CustomJWTAuthentication.get_user
    in src/sso_auth/views.py, on top of rest_framework_simplejwt token
    validation: signature, expiry and - for refresh tokens - the blacklist),
  * the logout operation (UserAuthViewSet.logout in src/sso_auth/views.py),
  * scope-filtered claim resolution (UserInfoView.get in
    src/sso_auth/oauth_views.py, CustomOAuth2Validator.get_additional_claims
    in src/sso_auth/oauth_validators.py, UserSettingsSerializer in
    src/sso_auth/serializers.py),
  * scope validation (CustomOAuth2Validator.validate_scopes),
  * the permission gate (IsPortalAdmin.has_permission in
    src/sso_admin/permissions.py, AdminPermissionRequiredMixin.dispatch in
    src/sso_admin/views.py),
  * the portal return-target validation (PortalView.get_context_data in
    src/sso_auth/views.py, on top of Python urllib.parse.urlparse).
-/

namespace SSO

/-- Permission record (src/sso_auth/models.py; the `create_applications`
boolean is declared as a Permission model field by
src/sso_admin/serializers.py `AdminPermissionSerializer` and is read by
src/sso_auth/oauth_views.py and written by the admin serializers). -/
structure Permission where
  admin_user : Bool
  create_applications : Bool
deriving Repr, DecidableEq

/-- User record (src/sso_auth/models.py plus the `token_version` integer
column read and written by src/sso_auth/views.py).  `permission` is nullable
(`null=True, blank=True` on the OneToOneField). -/
structure User where
  id : Nat
  username : String
  email : String
  is_active : Bool
  token_version : Nat
  permission : Option Permission
deriving Repr, DecidableEq

/-- Decoded bearer-token payload: simplejwt tokens carry the user id, the
custom `ver` claim written by `_create_token_payload`, the unique `jti`
identifier (used as the blacklist key) and the expiry time.  `sig_ok` models
whether the presented string decodes under the signing key at all (false for
malformed or foreign tokens). -/
structure Token where
  user_id : Nat
  ver : Nat
  jti : Nat
  exp : Nat
  sig_ok : Bool
deriving Repr, DecidableEq

/-- Verification failure taxonomy (spec section 7).  `EpochMismatch` is the
`AuthenticationFailed('Token version mismatch')` raised at
src/sso_auth/views.py:26; the others are the corresponding simplejwt
failures that the custom classes inherit. -/
inductive AuthError
  | Malformed
  | Expired
  | EpochMismatch
  | PrincipalInactive
  | UserNotFound
  | Blacklisted
deriving Repr, DecidableEq

/-- Database lookup of a user by primary key. -/
def findUser (db : List User) (uid : Nat) : Option User :=
  match db with
  | [] => none
  | u :: rest => if u.id = uid then some u else findUser rest uid

/-- Token-level validation performed by simplejwt when a presented string is
decoded (signature, then expiry).  Returns the failure, if any. -/
def checkToken (now : Nat) (tok : Token) : Option AuthError :=
  if tok.sig_ok = false then some AuthError.Malformed
  else if tok.exp ≤ now then some AuthError.Expired
  else none

/-- CustomJWTAuthentication.get_user (src/sso_auth/views.py lines 21-27):
simplejwt's get_user loads the user (failing when missing or inactive), then
the custom override fails when the token's `ver` claim differs from the
user's live `token_version`. -/
def get_user (db : List User) (tok : Token) : Except AuthError User :=
  match findUser db tok.user_id with
  | none => Except.error AuthError.UserNotFound
  | some u =>
    if u.is_active = false then Except.error AuthError.PrincipalInactive
    else if tok.ver ≠ u.token_version then Except.error AuthError.EpochMismatch
    else Except.ok u

/-- Full access-token verification pipeline: decode (signature, expiry), then
CustomJWTAuthentication.get_user. -/
def verifyAccess (now : Nat) (db : List User) (tok : Token) : Except AuthError User :=
  match checkToken now tok with
  | some e => Except.error e
  | none => get_user db tok

/-- RefreshToken verification additionally consults the blacklist (simplejwt
BlacklistMixin.check_blacklist, keyed by `jti`), before any epoch concern. -/
def verifyRefresh (now : Nat) (db : List User) (blacklist : List Nat) (tok : Token) :
    Except AuthError User :=
  match checkToken now tok with
  | some e => Except.error e
  | none =>
    if tok.jti ∈ blacklist then Except.error AuthError.Blacklisted
    else get_user db tok

/-- UserAuthViewSet._create_token_payload (src/sso_auth/views.py lines
38-44): mint a refresh/access pair for `u`; both carry the custom claim
`ver = u.token_version` at call time (the access token inherits the refresh
token's custom claims). -/
def createTokenPayload (u : User) (jtiRefresh jtiAccess expRefresh expAccess : Nat) :
    Token × Token :=
  (⟨u.id, u.token_version, jtiRefresh, expRefresh, true⟩,
   ⟨u.id, u.token_version, jtiAccess, expAccess, true⟩)

/-- Mutable state touched by the Session Epoch Authority: the user store and
the refresh-token blacklist (set of `jti`s). -/
structure AuthState where
  users : List User
  blacklist : List Nat
deriving Repr, DecidableEq

/-- The validation performed by `RefreshToken(refresh_token)` inside logout:
decoding failure, expiry, or an already-blacklisted `jti` each raise a
TokenError. -/
def refreshTokenCheck (now : Nat) (blacklist : List Nat) (tok : Token) : Option AuthError :=
  match checkToken now tok with
  | some e => some e
  | none => if tok.jti ∈ blacklist then some AuthError.Blacklisted else none

/-- Increment `token_version` of the user with primary key `uid`
(`user.token_version += 1; user.save(update_fields=['token_version'])`). -/
def bumpVersion (users : List User) (uid : Nat) : List User :=
  users.map (fun u => if u.id == uid then { u with token_version := u.token_version + 1 } else u)

/-- The `if getattr(user, 'is_authenticated', False):` step of logout: the
epoch is bumped only when the request carries an authenticated user. -/
def incrementIfAuthenticated (st : AuthState) (caller : Option Nat) : AuthState :=
  match caller with
  | some uid => { st with users := bumpVersion st.users uid }
  | none => st

/-- Outcome of the logout endpoint: 200 `{'status': 'Logged out successfully'}`
or 400 `{'error': 'Invalid token'}`. -/
inductive LogoutResult
  | ok
  | invalidToken
deriving Repr, DecidableEq

/-- UserAuthViewSet.logout (src/sso_auth/views.py lines 92-114).
`caller` is `request.user` (`some uid` when authenticated), `refresh` the
optional request-body field.  If a refresh token is present it is decoded and
blacklisted; any TokenError there returns the 400 response at once (before
the epoch increment).  Otherwise the caller's `token_version` is incremented
when authenticated, and the success response is returned. -/
def logout (now : Nat) (st : AuthState) (caller : Option Nat) (refresh : Option Token) :
    AuthState × LogoutResult :=
  match refresh with
  | some tok =>
    match refreshTokenCheck now st.blacklist tok with
    | some _ => (st, LogoutResult.invalidToken)
    | none =>
      let st1 : AuthState := { st with blacklist := tok.jti :: st.blacklist }
      (incrementIfAuthenticated st1 caller, LogoutResult.ok)
  | none => (incrementIfAuthenticated st caller, LogoutResult.ok)

/-- Tokens minted by `_create_token_payload` always embed the minting user's
current `token_version`. -/
theorem createTokenPayload_ver (u : User) (jr ja er ea : Nat) :
    (createTokenPayload u jr ja er ea).1.ver = u.token_version ∧
    (createTokenPayload u jr ja er ea).2.ver = u.token_version :=
  ⟨rfl, rfl⟩

/-- Looking up the bumped user after an epoch increment. -/
theorem findUser_bumpVersion (users : List User) (uid : Nat) (u : User)
    (h : findUser users uid = some u) :
    findUser (bumpVersion users uid) uid
      = some { u with token_version := u.token_version + 1 } := by
  induction users with
  | nil => simp [findUser] at h
  | cons a l ih =>
    by_cases ha : a.id = uid
    · have h2 : a = u := by
        simpa [findUser, ha] using h
      subst h2
      simp [findUser, bumpVersion, ha]
    · have htail : findUser l uid = some u := by
        simpa [findUser, ha] using h
      have hrec := ih htail
      have hb : bumpVersion (a :: l) uid = a :: bumpVersion l uid := by
        simp [bumpVersion, ha]
      rw [hb]
      simpa [findUser, ha] using hrec

/-- JSON values occurring in the three claim maps.  `permsObj` is the
two-field object `{"admin_user": _, "create_applications": _}` produced under
the `permissions` scope; `permObj` is the one-field object
`{"admin_user": _}` produced by PermissionSerializer (fields =
`['admin_user']`); `null` is the serialization of a missing Permission row. -/
inductive JsonVal
  | str (s : String)
  | num (n : Nat)
  | bool (b : Bool)
  | permsObj (admin_user create_applications : Bool)
  | permObj (admin_user : Bool)
  | null
deriving Repr, DecidableEq

/-- The `permissions`-scope claim value.  Both UserInfoView.get
(src/sso_auth/oauth_views.py lines 102-114) and
CustomOAuth2Validator.get_additional_claims (src/sso_auth/oauth_validators.py
lines 34-46) contain this identical block: `getattr(user, 'permission', None)`
then the flags of the record, defaulting both to false when absent. -/
def permissionsClaim (u : User) : JsonVal :=
  match u.permission with
  | some p => JsonVal.permsObj p.admin_user p.create_applications
  | none => JsonVal.permsObj false false

/-- UserInfoView.get response body (src/sso_auth/oauth_views.py lines
88-116): `sub` always, then username / email / permissions gated on the
granted scopes, in insertion order. -/
def userInfoClaims (u : User) (scopes : List String) : List (String × JsonVal) :=
  [("sub", JsonVal.str (toString u.id))]
  ++ (if "username" ∈ scopes then [("username", JsonVal.str u.username)] else [])
  ++ (if "email" ∈ scopes then [("email", JsonVal.str u.email)] else [])
  ++ (if "permissions" ∈ scopes then [("permissions", permissionsClaim u)] else [])

/-- CustomOAuth2Validator.get_additional_claims (src/sso_auth/oauth_validators.py
lines 14-48): starts from an empty dict, adds the scope-gated claims only when
`request.user` is set; note there is no `sub` entry. -/
def getAdditionalClaims (user : Option User) (scopes : List String) :
    List (String × JsonVal) :=
  match user with
  | none => []
  | some u =>
    (if "username" ∈ scopes then [("username", JsonVal.str u.username)] else [])
    ++ (if "email" ∈ scopes then [("email", JsonVal.str u.email)] else [])
    ++ (if "permissions" ∈ scopes then [("permissions", permissionsClaim u)] else [])

/-- UserSettingsSerializer output (src/sso_auth/serializers.py lines 17-24):
fields `['id', 'username', 'email', 'permission']`, the nested
PermissionSerializer exposing only `admin_user`, and null for a user without
a Permission row.  No scope filtering. -/
def userSettingsData (u : User) : List (String × JsonVal) :=
  [("id", JsonVal.num u.id),
   ("username", JsonVal.str u.username),
   ("email", JsonVal.str u.email),
   ("permission",
     match u.permission with
     | some p => JsonVal.permObj p.admin_user
     | none => JsonVal.null)]

/-- Lookup of a key in a claim map (Python dict access on the built dict). -/
def lookupClaim (k : String) : List (String × JsonVal) → Option JsonVal
  | [] => none
  | (k2, v) :: rest => if k = k2 then some v else lookupClaim k rest

/-- CustomOAuth2Validator.validate_scopes (src/sso_auth/oauth_validators.py
lines 50-56): `all(scope in allowed_scopes for scope in scopes)` with
`allowed_scopes = ['username', 'email', 'permissions']`. -/
def validate_scopes (scopes : List String) : Bool :=
  scopes.all (fun scope => decide (scope ∈ ["username", "email", "permissions"]))

/-- Detail string attached to each verification failure as it crosses the
boundary.  `EpochMismatch` carries the literal from src/sso_auth/views.py:26;
the others carry the messages of the simplejwt exceptions the custom classes
inherit (InvalidToken's generic detail for undecodable and expired tokens,
and the AuthenticationFailed details of simplejwt's get_user / blacklist
check). -/
def failureDetail : AuthError → String
  | AuthError.Malformed => "Given token not valid for any token type"
  | AuthError.Expired => "Given token not valid for any token type"
  | AuthError.EpochMismatch => "Token version mismatch"
  | AuthError.PrincipalInactive => "User is inactive"
  | AuthError.UserNotFound => "User not found"
  | AuthError.Blacklisted => "Token is blacklisted"

/-- HTTP response as seen by the caller at the boundary. -/
structure HttpResponse where
  status : Nat
  detail : String
deriving Repr, DecidableEq

/-- Response the Transport layer returns when token verification fails: the
rest_framework exception handler renders the raised AuthenticationFailed /
InvalidToken as a 401 whose body carries the exception's detail string. -/
def boundaryResponse (e : AuthError) : HttpResponse :=
  { status := 401, detail := failureDetail e }

/-- IsPortalAdmin.has_permission (src/sso_admin/permissions.py lines 4-12):
false for an unauthenticated request user, else
`bool(permission and getattr(permission, "admin_user", False))`.
`none` models an AnonymousUser request.user. -/
def has_permission (user : Option User) : Bool :=
  match user with
  | none => false
  | some u =>
    match u.permission with
    | none => false
    | some p => p.admin_user

/-- Outcome of AdminPermissionRequiredMixin.dispatch. -/
inductive DispatchOutcome
  | redirect
  | forbidden
  | proceed
deriving Repr, DecidableEq

/-- AdminPermissionRequiredMixin.dispatch (src/sso_admin/views.py lines
20-35): unauthenticated users are redirected to the login portal; users
without a Permission row or with `admin_user` false get 403 Forbidden;
otherwise dispatch proceeds. -/
def adminDispatch (user : Option User) : DispatchOutcome :=
  match user with
  | none => DispatchOutcome.redirect
  | some u =>
    match u.permission with
    | none => DispatchOutcome.forbidden
    | some p =>
      if p.admin_user then DispatchOutcome.proceed else DispatchOutcome.forbidden

/-- Characters allowed in a URL scheme after the first (Python urllib.parse
`scheme_chars`: ASCII letters, digits, `+`, `-`, `.`). -/
def isSchemeChar (c : Char) : Bool :=
  c.isAlpha || c.isDigit || c == '+' || c == '-' || c == '.'

/-- Python urlsplit removes every tab, carriage return and line feed from the
url before parsing (`_UNSAFE_URL_BYTES_TO_REMOVE`). -/
def removeTabsCrLf (l : List Char) : List Char :=
  l.filter (fun c => !(c == '\t' || c == '\r' || c == '\n'))

/-- Split a character list at its first colon: `some (before, after)`, or
`none` when no colon occurs (models `url.find(':')`). -/
def takeUntilColon : List Char → Option (List Char × List Char)
  | [] => none
  | c :: rest =>
    if c == ':' then some ([], rest)
    else
      match takeUntilColon rest with
      | none => none
      | some (pre, post) => some (c :: pre, post)

/-- Scheme extraction of urlsplit: a scheme exists when the first colon is at
a positive position, the first character is an ASCII letter and the remaining
characters before the colon are scheme characters; the scheme is lowercased
and the remainder is everything after the colon. -/
def splitScheme (l : List Char) : List Char × List Char :=
  match takeUntilColon l with
  | none => ([], l)
  | some ([], _) => ([], l)
  | some (c :: pre, post) =>
    if c.isAlpha && pre.all isSchemeChar then ((c :: pre).map Char.toLower, post)
    else ([], l)

/-- Netloc extraction of urlsplit: when the (scheme-stripped) url starts with
`//`, the netloc extends to the next `/`, `?` or `#`. -/
def splitNetloc (l : List Char) : List Char × List Char :=
  match l with
  | '/' :: '/' :: rest =>
    (rest.takeWhile (fun c => !(c == '/' || c == '?' || c == '#')),
     rest.dropWhile (fun c => !(c == '/' || c == '?' || c == '#')))
  | _ => ([], l)

/-- The `(scheme, netloc)` components of Python `urllib.parse.urlparse`
applied to a string (the only components PortalView consults). -/
def urlparseSN (s : String) : String × String :=
  let l := removeTabsCrLf s.data
  let sr := splitScheme l
  let nr := splitNetloc sr.2
  (String.mk sr.1, String.mk nr.1)

/-- Python `str.startswith('/')`. -/
def startsWithSlash (s : String) : Bool :=
  match s.data with
  | '/' :: _ => true
  | _ => false

/-- PortalView.get_context_data return-target handling (src/sso_auth/views.py
lines 192-200): an empty `next` stays empty; a value whose urlparse has a
scheme or netloc is replaced by the empty string; a value not starting with
`/` gets `/` prepended; the result is echoed into the portal context. -/
def portalNext (next_url : String) : String :=
  if next_url = "" then next_url
  else
    let parsed := urlparseSN next_url
    if parsed.1 ≠ "" ∨ parsed.2 ≠ "" then ""
    else if startsWithSlash next_url then next_url
    else "/" ++ next_url

/-- Concrete user without a Permission row, used by witnesses. -/
def user1 : User :=
  { id := 1, username := "alice", email := "alice@x.com", is_active := true,
    token_version := 5, permission := none }

/-- Concrete user with Permission `{admin_user: false, create_applications: true}`. -/
def user2 : User :=
  { id := 2, username := "bob", email := "bob@x.com", is_active := true,
    token_version := 0, permission := some { admin_user := false, create_applications := true } }

/-- Concrete store holding `user1` with an empty blacklist. -/
def demoState : AuthState := { users := [user1], blacklist := [] }

/-- A refresh token previously issued for `user1` (epoch 5). -/
def refresh1 : Token := { user_id := 1, ver := 5, jti := 10, exp := 100, sig_ok := true }

/-- An access token previously issued for `user1` (epoch 5), e.g. on another device. -/
def access1 : Token := { user_id := 1, ver := 5, jti := 11, exp := 100, sig_ok := true }

/-- A malformed refresh token (does not decode under the signing key). -/
def malformedTok : Token := { user_id := 1, ver := 5, jti := 12, exp := 100, sig_ok := false }

/-- C1: after logout(P, r) completes, every token previously issued for P
(its `ver` claim is at most P's pre-logout `token_version`, since issuance
always embeds the live version) fails verification with `EpochMismatch`, and
the presented refresh token r additionally fails via the blacklist - the
blacklist check precedes any epoch comparison, so r is rejected even when its
epoch matches. -/
theorem logout_revokes_all_prior_tokens
    (now : Nat) (st : AuthState) (uid : Nat) (u : User) (r t : Token)
    (hu : findUser st.users uid = some u)
    (hr : refreshTokenCheck now st.blacklist r = none)
    (htu : t.user_id = uid)
    (htv : t.ver ≤ u.token_version)
    (hts : t.sig_ok = true)
    (hte : now < t.exp)
    (hua : u.is_active = true) :
    (logout now st (some uid) (some r)).2 = LogoutResult.ok
    ∧ verifyAccess now (logout now st (some uid) (some r)).1.users t
        = Except.error AuthError.EpochMismatch
    ∧ verifyRefresh now (logout now st (some uid) (some r)).1.users
        (logout now st (some uid) (some r)).1.blacklist r
        = Except.error AuthError.Blacklisted := by
  have hstep : logout now st (some uid) (some r)
      = ({ users := bumpVersion st.users uid, blacklist := r.jti :: st.blacklist },
         LogoutResult.ok) := by
    simp [logout, hr, incrementIfAuthenticated]
  have hcheckr : checkToken now r = none := by
    unfold refreshTokenCheck at hr
    cases hc : checkToken now r with
    | none => rfl
    | some e => rw [hc] at hr; simp at hr
  have hfind := findUser_bumpVersion st.users uid u hu
  refine ⟨by rw [hstep], ?_, ?_⟩
  · rw [hstep]
    have hct : checkToken now t = none := by
      simp [checkToken, hts, show ¬ t.exp ≤ now by omega]
    unfold verifyAccess
    rw [hct]
    unfold get_user
    rw [htu, hfind]
    simp only [hua]
    have hne : t.ver ≠ u.token_version + 1 := by omega
    simp [hne]
  · rw [hstep]
    unfold verifyRefresh
    rw [hcheckr]
    simp

/-- Witness for C1 at a concrete state: user1 (epoch 5) logs out with
refresh1; the previously issued access1 then fails with EpochMismatch and
refresh1 fails via the blacklist. -/
theorem logout_revokes_all_prior_tokens_witness :
    (logout 0 demoState (some 1) (some refresh1)).2 = LogoutResult.ok
    ∧ verifyAccess 0 (logout 0 demoState (some 1) (some refresh1)).1.users access1
        = Except.error AuthError.EpochMismatch
    ∧ verifyRefresh 0 (logout 0 demoState (some 1) (some refresh1)).1.users
        (logout 0 demoState (some 1) (some refresh1)).1.blacklist refresh1
        = Except.error AuthError.Blacklisted :=
  logout_revokes_all_prior_tokens 0 demoState 1 user1 refresh1 access1
    (by decide) (by decide) (by decide) (by decide) (by decide) (by decide) (by decide)

/-- C2 counterexample: an authenticated caller (user1, epoch 5) supplies a
malformed refresh token; logout returns the invalid-token error and the store
is unchanged - in particular user1's `token_version` is still 5, not 6: the
increment was not attempted, contrary to the claim. -/
theorem logout_bad_refresh_counterexample :
    (logout 0 demoState (some 1) (some malformedTok)).2 = LogoutResult.invalidToken
    ∧ (logout 0 demoState (some 1) (some malformedTok)).1 = demoState
    ∧ user1.token_version = 5 := by decide

/-- C2 amended: a bad (malformed, expired, or already-blacklisted) refresh
token makes logout return the invalid-token error before the epoch increment
is reached - the caller's state, including `token_version`, is unchanged. -/
theorem logout_bad_refresh_skips_increment
    (now : Nat) (st : AuthState) (caller : Option Nat) (tok : Token)
    (h : refreshTokenCheck now st.blacklist tok ≠ none) :
    logout now st caller (some tok) = (st, LogoutResult.invalidToken) := by
  cases hc : refreshTokenCheck now st.blacklist tok with
  | none => exact absurd hc h
  | some e => simp [logout, hc]

/-- Witness for the amended C2 at a concrete input. -/
theorem logout_bad_refresh_skips_increment_witness :
    logout 0 demoState (some 1) (some malformedTok) = (demoState, LogoutResult.invalidToken) :=
  logout_bad_refresh_skips_increment 0 demoState (some 1) malformedTok (by decide)

/-- C10: a logout request whose body carries no refresh field skips the
blacklist step, reports success, and still increments the authenticated
caller's `token_version` by exactly 1. -/
theorem logout_missing_refresh_succeeds
    (now : Nat) (st : AuthState) (uid : Nat) (u : User)
    (hu : findUser st.users uid = some u) :
    logout now st (some uid) none
      = ({ users := bumpVersion st.users uid, blacklist := st.blacklist }, LogoutResult.ok)
    ∧ findUser (logout now st (some uid) none).1.users uid
        = some { u with token_version := u.token_version + 1 } := by
  have h1 : logout now st (some uid) none
      = ({ users := bumpVersion st.users uid, blacklist := st.blacklist }, LogoutResult.ok) := by
    simp [logout, incrementIfAuthenticated]
  refine ⟨h1, ?_⟩
  rw [h1]
  exact findUser_bumpVersion st.users uid u hu

/-- Witness for C10 at a concrete state. -/
theorem logout_missing_refresh_succeeds_witness :
    logout 0 demoState (some 1) none
      = ({ users := bumpVersion demoState.users 1, blacklist := demoState.blacklist },
         LogoutResult.ok)
    ∧ findUser (logout 0 demoState (some 1) none).1.users 1
        = some { user1 with token_version := user1.token_version + 1 } :=
  logout_missing_refresh_succeeds 0 demoState 1 user1 (by decide)

/-- C3 counterexample: for principal user1 with granted scope set
`{username}`, the three call sites disagree pairwise: the userinfo endpoint
returns `{sub, username}`, the ID-token hook returns `{username}` (no `sub`),
and the settings endpoint returns the scope-independent
`{id, username, email, permission}`. -/
theorem claim_resolvers_counterexample :
    userInfoClaims user1 ["username"] ≠ getAdditionalClaims (some user1) ["username"]
    ∧ userInfoClaims user1 ["username"] ≠ userSettingsData user1
    ∧ getAdditionalClaims (some user1) ["username"] ≠ userSettingsData user1 := by
  decide

/-- C3 amended: the userinfo endpoint and the OIDC ID-token claims hook are
equivalent resolvers up to the `sub` claim - on every principal and scope set
the userinfo body is exactly the `sub` entry followed by the hook's output;
the settings endpoint is a different, scope-independent resolver. -/
theorem userinfo_eq_sub_cons_idtoken_claims (u : User) (scopes : List String) :
    userInfoClaims u scopes
      = ("sub", JsonVal.str (toString u.id)) :: getAdditionalClaims (some u) scopes := rfl

/-- C4: whenever the `permissions` scope is granted, the resolved claim map
contains the key `permissions`, mapped to the record's two flags, defaulting
both to false when the principal has no Permission row; the key is never
omitted and resolution is total. -/
theorem permissions_scope_claim (u : User) (scopes : List String)
    (h : "permissions" ∈ scopes) :
    lookupClaim "permissions" (userInfoClaims u scopes) = some (permissionsClaim u)
    ∧ (u.permission = none → permissionsClaim u = JsonVal.permsObj false false) := by
  constructor
  · by_cases h1 : "username" ∈ scopes <;> by_cases h2 : "email" ∈ scopes <;>
      simp [userInfoClaims, lookupClaim, h, h1, h2]
  · intro hn
    simp [permissionsClaim, hn]

/-- Witness for C4 at the spec's concrete scenario: user2 has Permission
`{admin_user: false, create_applications: true}` and requests scope
`permissions`; the resolved map carries `permissions -> {false, true}`. -/
theorem permissions_scope_claim_witness :
    lookupClaim "permissions" (userInfoClaims user2 ["permissions"])
      = some (JsonVal.permsObj false true)
    ∧ (user2.permission = none → permissionsClaim user2 = JsonVal.permsObj false false) :=
  permissions_scope_claim user2 ["permissions"] (by decide)

/-- C5: the `sub` claim (principal id as string) is present in the userinfo
claim map for every scope set; the empty scope set resolves to exactly
`{sub}`; and a scope set containing only unrecognized scopes also resolves to
exactly `{sub}`, the unknown scopes being silently ignored. -/
theorem sub_always_present_unknown_scopes_ignored
    (u : User) (scopes : List String)
    (h : "username" ∉ scopes ∧ "email" ∉ scopes ∧ "permissions" ∉ scopes) :
    (∀ S : List String,
      lookupClaim "sub" (userInfoClaims u S) = some (JsonVal.str (toString u.id)))
    ∧ userInfoClaims u [] = [("sub", JsonVal.str (toString u.id))]
    ∧ userInfoClaims u scopes = [("sub", JsonVal.str (toString u.id))] := by
  refine ⟨fun S => ?_, ?_, ?_⟩
  · simp [userInfoClaims, lookupClaim]
  · simp [userInfoClaims]
  · simp [userInfoClaims, h.1, h.2.1, h.2.2]

/-- Witness for C5 at scope set `{bogus}`. -/
theorem sub_always_present_unknown_scopes_ignored_witness :
    (∀ S : List String,
      lookupClaim "sub" (userInfoClaims user1 S) = some (JsonVal.str (toString user1.id)))
    ∧ userInfoClaims user1 [] = [("sub", JsonVal.str (toString user1.id))]
    ∧ userInfoClaims user1 ["bogus"] = [("sub", JsonVal.str (toString user1.id))] :=
  sub_always_present_unknown_scopes_ignored user1 ["bogus"] (by decide)

/-- C6: the grant-time scope-validation callback accepts a requested scope
list exactly when every scope in it belongs to the allow-list
`{username, email, permissions}`; in particular `{admin}` is rejected and
`{email}` is accepted. -/
theorem validate_scopes_allowlist :
    (∀ scopes : List String,
      validate_scopes scopes = true ↔ ∀ s ∈ scopes, s ∈ ["username", "email", "permissions"])
    ∧ validate_scopes ["admin"] = false
    ∧ validate_scopes ["email"] = true := by
  refine ⟨fun scopes => ?_, by decide, by decide⟩
  simp [validate_scopes, List.all_eq_true]

/-- C7 counterexample: the boundary responses for the EpochMismatch and
PrincipalInactive verification failures differ (their bodies carry
`Token version mismatch` and `User is inactive` respectively), so the
response body does depend on which check failed. -/
theorem boundary_leaks_failure_kind_counterexample :
    boundaryResponse AuthError.EpochMismatch ≠ boundaryResponse AuthError.PrincipalInactive := by
  decide

/-- C7 amended: verification failures are not collapsed into one
undifferentiated response body: only Malformed and Expired share the same
generic body, while EpochMismatch and PrincipalInactive each produce bodies
distinguishable from it and from each other. -/
theorem boundary_failure_responses_differ :
    boundaryResponse AuthError.Malformed = boundaryResponse AuthError.Expired
    ∧ boundaryResponse AuthError.EpochMismatch ≠ boundaryResponse AuthError.Malformed
    ∧ boundaryResponse AuthError.EpochMismatch ≠ boundaryResponse AuthError.PrincipalInactive
    ∧ boundaryResponse AuthError.Malformed ≠ boundaryResponse AuthError.PrincipalInactive := by
  decide

/-- C8: the admin predicate holds exactly when the request user is
authenticated and their Permission row exists with `admin_user = true` (so it
is false with no Permission row and false with `admin_user = false`); and the
admin portal dispatch proceeds exactly when the predicate holds. -/
theorem is_admin_characterization :
    ∀ user : Option User,
      (has_permission user = true
        ↔ ∃ u p, user = some u ∧ u.permission = some p ∧ p.admin_user = true)
      ∧ (adminDispatch user = DispatchOutcome.proceed ↔ has_permission user = true) := by
  intro user
  cases user with
  | none => simp [has_permission, adminDispatch]
  | some u =>
    cases hp : u.permission with
    | none => simp [has_permission, adminDispatch, hp]
    | some p =>
      cases hb : p.admin_user <;> simp [has_permission, adminDispatch, hp, hb]

/-- C9: evaluation at the failing input. The return target `"\t/evil.com"`
passes validation (its urlparse, which strips tabs, sees neither scheme nor
netloc), is echoed as `"/\t/evil.com"` - and that echoed value, run through
the very parser used for validation (as any WHATWG-conforming browser
likewise strips the tab), has network host `evil.com`: the echoed target
points off-origin. -/
theorem portal_next_tab_bypass :
    urlparseSN "\t/evil.com" = ("", "")
    ∧ portalNext "\t/evil.com" = "/\t/evil.com"
    ∧ (urlparseSN "/\t/evil.com").2 = "evil.com" := by decide

end SSO
